import Mathlib

/-!
Shallow embedding of the computational core of `src/Water_Analyzer.py`:
descriptive statistics (`calculate_statistics`), Pearson correlation
(`calculate_correlation` with `interpret_correlation` and
`estimate_p_value`), and the lag-window forecast pipeline
(`open_forecast_plot` together with the sklearn calls it makes).

Python floats are idealised as exact rationals (`ℚ`) wherever the value the
code computes is a rational function of the inputs, and as real numbers
(`ℝ`) where a square root occurs.  A float `NaN` is modelled with `Option`
(`none` = NaN); a pandas/numpy infinity is likewise modelled explicitly at
the one place it occurs (`estimate_p_value`).
-/

namespace WaterAnalyzer

/-- Arithmetic mean (`Series.mean`); `0` on the empty list (guarded by the
callers, as in the source). -/
def meanQ (l : List ℚ) : ℚ := l.sum / (l.length : ℚ)

/-- Insert into an ascending list, keeping it ascending. -/
def insertQ (x : ℚ) : List ℚ → List ℚ
  | [] => [x]
  | y :: ys => if x ≤ y then x :: y :: ys else y :: insertQ x ys

/-- Ascending insertion sort; models the sorting that pandas performs for
`median`, `quantile` and `mode`. -/
def sortQ (l : List ℚ) : List ℚ := l.foldr insertQ []

/-- Median (`Series.median`): middle value of the sorted data, the average
of the two middle values when the length is even. -/
def medianQ (l : List ℚ) : ℚ :=
  let s := sortQ l
  let n := s.length
  if n % 2 = 1 then s.getD (n / 2) 0
  else (s.getD (n / 2 - 1) 0 + s.getD (n / 2) 0) / 2

/-- Linear-interpolation percentile (`Series.quantile`, default
`interpolation="linear"`): with sorted data `s` of length `n` and
`h = q * (n - 1)`, the result is
`s[⌊h⌋] + (h - ⌊h⌋) * (s[⌊h⌋ + 1] - s[⌊h⌋])`. -/
def quantileQ (l : List ℚ) (q : ℚ) : ℚ :=
  let s := sortQ l
  let h := q * ((s.length : ℚ) - 1)
  let i := (Int.floor h).toNat
  let lo := s.getD i 0
  let hi := s.getD (i + 1) lo
  lo + (h - (Int.floor h : ℚ)) * (hi - lo)

/-- `Series.mode`: the values of maximal frequency, in ascending order
(pandas returns them sorted). -/
def modesQ (l : List ℚ) : List ℚ :=
  let uniq := (sortQ l).dedup
  let mx := (uniq.map (fun v => l.count v)).foldr max 0
  uniq.filter (fun v => l.count v = mx)

/-- `Series.var(ddof=1)`: sample variance with Bessel's correction.  With
fewer than two values pandas returns float `NaN`, modelled as `none`. -/
def varQ (l : List ℚ) : Option ℚ :=
  if 2 ≤ l.length then
    some (((l.map (fun x => (x - meanQ l) ^ 2)).sum) / ((l.length : ℚ) - 1))
  else none

/-- The record built by `calculate_statistics` (source lines 546-605).  The
Russian dictionary keys of the source map to the fields in order: count,
median, mean, min, max, sum, range, mode (primary and ties), quartiles,
IQR, outlier fences, the two absolute deviations, variance, std and the
coefficient of variation.  The shape statistics (skewness, kurtosis and
their textual interpretations) are not modelled: no claim concerns them.
In `cv` the outer `Option` is key presence (the key is absent when the mean
is zero) and the inner `Option` is float NaN-ness. -/
structure StatSummary where
  count : ℕ
  median : ℚ
  mean : ℚ
  minv : ℚ
  maxv : ℚ
  total : ℚ
  rangev : ℚ
  modePrimary : Option ℚ
  modeExtras : List ℚ
  q1 : ℚ
  q2 : ℚ
  q3 : ℚ
  iqr : ℚ
  fenceLo : ℚ
  fenceHi : ℚ
  madMean : ℚ
  madMedian : ℚ
  variance : Option ℚ
  std : Option ℝ
  cv : Option (Option ℝ)

/-- The pure statistical computation of `calculate_statistics` on the
cleaned numeric data (source lines 546-605). -/
noncomputable def statSummary (l : List ℚ) : StatSummary :=
  let q1 := quantileQ l (1 / 4)
  let q3 := quantileQ l (3 / 4)
  let iqr := q3 - q1
  { count := l.length
    median := medianQ l
    mean := meanQ l
    minv := (sortQ l).getD 0 0
    maxv := (sortQ l).getD (l.length - 1) 0
    total := l.sum
    rangev := (sortQ l).getD (l.length - 1) 0 - (sortQ l).getD 0 0
    modePrimary := (modesQ l).head?
    modeExtras := (modesQ l).tail
    q1 := q1
    q2 := quantileQ l (1 / 2)
    q3 := q3
    iqr := iqr
    fenceLo := q1 - 3 / 2 * iqr
    fenceHi := q3 + 3 / 2 * iqr
    madMean := meanQ (l.map (fun x => |x - meanQ l|))
    madMedian := medianQ (l.map (fun x => |x - medianQ l|))
    variance := varQ l
    std := (varQ l).map (fun v => Real.sqrt (v : ℝ))
    cv := if meanQ l = 0 then none
          else some ((varQ l).map (fun v => Real.sqrt (v : ℝ) / (meanQ l : ℝ) * 100)) }

/-- One record of the loaded dataframe.  After `load_file` (source lines
399-415) the frame has exactly the three columns
`Время` (valid datetimes, held as integer nanoseconds since the epoch,
which is what `pd.to_numeric(pd.to_datetime(...))` yields),
`Активность` (strings) and `Объем воды (л)` (floats, possibly NaN:
`pd.to_numeric(..., errors="coerce")`). -/
structure Row where
  time : Int
  activity : String
  volume : Option ℚ

/-- The loaded dataframe: an ordered sequence of rows. -/
structure Df where
  rows : List Row

/-- The three column identities of the fixed-shape frame. -/
inductive Col
  | time
  | activity
  | volume
deriving DecidableEq

/-- Column lookup `self.df[column]`: resolves a column name, `none` models
the `KeyError` for an unknown name. -/
def resolveCol (s : String) : Option Col :=
  if s = "Время" then some Col.time
  else if s = "Активность" then some Col.activity
  else if s = "Объем воды (л)" then some Col.volume
  else none

/-- `self.df[column].dropna()` for the numeric column. -/
def dropnaVol (df : Df) : List ℚ := df.rows.filterMap (fun r => r.volume)

/-- Prefix the except-handler of `calculate_statistics` (source line 610)
puts on every error message. -/
def statsErrPre : String := "Ошибка при расчете статистики: "

/-- `calculate_statistics(column)` (source lines 523-610): validation of
the requested column followed by the statistical computation; every raised
error is re-raised with the `statsErrPre` prefix.  The `Время` column has
dtype datetime64 and the `Активность` column dtype object, so both fail the
`is_numeric_dtype` check; the subsequent `pd.to_numeric(..., errors=
"coerce").dropna()` on the already-numeric column is the identity. -/
noncomputable def calculate_statistics (df : Df) (column : String) :
    Except String StatSummary :=
  match resolveCol column with
  | none =>
      .error (statsErrPre ++ "Столбец '" ++ column ++ "' не найден в данных")
  | some Col.volume =>
      if (dropnaVol df).isEmpty then
        .error (statsErrPre ++ "Столбец '" ++ column ++ "' не содержит данных")
      else .ok (statSummary (dropnaVol df))
  | some _ =>
      if df.rows.isEmpty then
        .error (statsErrPre ++ "Столбец '" ++ column ++ "' не содержит данных")
      else
        .error (statsErrPre ++ "Столбец '" ++ column ++ "' не является числовым.")

/-- The numeric value `calculate_correlation` works with for a row and a
column (source lines 705-714): the time column is encoded by
`pd.to_numeric(pd.to_datetime(...))`, i.e. as its integer nanosecond
timestamp; the numeric column is taken as is (`none` = NaN); the category
column has no numeric value (pandas keeps it as dtype object and only
fails later, inside `.corr`). -/
def numCell (r : Row) : Col → Option ℚ
  | Col.time => some ((r.time : ℚ))
  | Col.activity => none
  | Col.volume => r.volume

/-- `notna` of a cell: strings and timestamps are never NA; a NaN float
is. -/
def notnaRow (r : Row) : Col → Bool
  | Col.time => true
  | Col.activity => true
  | Col.volume => r.volume.isSome

/-- `len(data1_clean)` (source lines 716-718): the number of rows passing
the pairwise `notna` mask. -/
def maskCount (df : Df) (c1 c2 : Col) : ℕ :=
  (df.rows.filter (fun r => notnaRow r c1 && notnaRow r c2)).length

/-- The cleaned value pairs `(data1_clean, data2_clean)` for two numeric
(or time-encoded) columns. -/
def pairsQ (df : Df) (c1 c2 : Col) : List (ℚ × ℚ) :=
  df.rows.filterMap (fun r =>
    match numCell r c1, numCell r c2 with
    | some x, some y => some (x, y)
    | _, _ => none)

/-- Centered cross product sum `Σ (x - x̄) * (y - ȳ)` over the pairs. -/
def sxyQ (ps : List (ℚ × ℚ)) : ℚ :=
  (ps.map (fun p =>
    (p.1 - meanQ (ps.map Prod.fst)) * (p.2 - meanQ (ps.map Prod.snd)))).sum

/-- Centered square sum `Σ (x - x̄)²` of the first components. -/
def sxxQ (ps : List (ℚ × ℚ)) : ℚ :=
  (ps.map (fun p => (p.1 - meanQ (ps.map Prod.fst)) ^ 2)).sum

/-- Centered square sum `Σ (y - ȳ)²` of the second components. -/
def syyQ (ps : List (ℚ × ℚ)) : ℚ :=
  (ps.map (fun p => (p.2 - meanQ (ps.map Prod.snd)) ^ 2)).sum

/-- Pearson's r as computed by `Series.corr` (source line 724):
`Σ(x-x̄)(y-ȳ) / sqrt(Σ(x-x̄)² * Σ(y-ȳ)²)`.  When either column has zero
variance the float division is 0/0 or c/0 and pandas yields NaN, modelled
as `none`. -/
noncomputable def pearsonR (ps : List (ℚ × ℚ)) : Option ℝ :=
  if sxxQ ps * syyQ ps = 0 then none
  else some ((sxyQ ps : ℝ) / Real.sqrt ((sxxQ ps : ℝ) * (syyQ ps : ℝ)))

/-- `interpret_correlation` (source lines 743-755); on a NaN coefficient
every `>=` comparison is false, so NaN lands in the final bucket. -/
noncomputable def interpret_correlation (r : Option ℝ) : String :=
  match r with
  | none => "Очень слабая или отсутствует"
  | some r =>
    if 0.9 ≤ |r| then "Очень сильная"
    else if 0.7 ≤ |r| then "Сильная"
    else if 0.5 ≤ |r| then "Умеренная"
    else if 0.3 ≤ |r| then "Слабая"
    else "Очень слабая или отсутствует"

open scoped Classical in
/-- `get_correlation_interpretation` (source lines 757-771), with the same
NaN convention. -/
noncomputable def get_correlation_interpretation (r : Option ℝ) : String :=
  match r with
  | none => "Нет статистически значимой связи"
  | some r =>
    if 0.9 ≤ |r| then "Практически линейная зависимость"
    else if 0.7 ≤ |r| then "Сильная статистическая зависимость"
    else if 0.5 ≤ |r| then "Заметная зависимость"
    else if 0.3 ≤ |r| then "Слабая зависимость"
    else if 0.1 ≤ |r| then "Очень слабая зависимость"
    else "Нет статистически значимой связи"

open scoped Classical in
/-- `estimate_p_value` (source lines 773-789).  The source computes
`t = abs(r) * np.sqrt((n - 2) / (1 - r**2)) if r != 1 else inf`; when
`r = -1` the guard does not fire but the numpy float division
`(n - 2) / 0.0` yields `+inf` (warnings are suppressed) and
`sqrt(inf) = inf`, so `t` is infinite there as well.  An infinite `t`
exceeds every threshold, hence both branches are written here directly as
the first bucket. -/
noncomputable def estimate_p_value (r : ℝ) (n : ℕ) : String :=
  if n ≤ 2 then "Недостаточно данных"
  else if r = 1 then "< 0.001 (высоко значимо)"
  else if 1 - r ^ 2 = 0 then "< 0.001 (высоко значимо)"
  else
    let t := |r| * Real.sqrt (((n : ℝ) - 2) / (1 - r ^ 2))
    if 3.5 < t then "< 0.001 (высоко значимо)"
    else if 2.6 < t then "< 0.01 (значимо)"
    else if 1.96 < t then "< 0.05 (умеренно значимо)"
    else "> 0.05 (не значимо)"

/-- `estimate_p_value` applied to a possibly-NaN coefficient: for NaN the
`r != 1` guard is true, `t` is NaN, every `>` comparison is false, and the
final bucket results (after the `n <= 2` check). -/
noncomputable def pvalOf (r : Option ℝ) (n : ℕ) : String :=
  match r with
  | none => if n ≤ 2 then "Недостаточно данных" else "> 0.05 (не значимо)"
  | some r => estimate_p_value r n

/-- The dictionary `calculate_correlation` returns on success (source
lines 730-738): the two column names, r, the strength and interpretation
labels, the pair count and the significance label. -/
structure CorrRecord where
  col1 : String
  col2 : String
  r : Option ℝ
  strength : String
  interp : String
  nPairs : ℕ
  pval : String

/-- A correlation outcome: the full record, or the error record
`{'Ошибка': message}` that the source returns as data. -/
inductive CorrOutcome
  | ok (rec : CorrRecord)
  | err (msg : String)

/-- The exceptions the body of `calculate_correlation` can raise: a
`KeyError` from `self.df[col]` on an unknown column name, and the
`TypeError` from `Series.corr` on the non-numeric category column. -/
inductive CorrExc
  | keyError (col : String)
  | typeError

/-- `str(e)` for the modelled exceptions.  `str` of a `KeyError` is the
offending key in quotes; the `TypeError` text from pandas is abbreviated
to a fixed message (no claim depends on its wording). -/
def excMsg : CorrExc → String
  | CorrExc.keyError c => "'" ++ c ++ "'"
  | CorrExc.typeError => "could not convert string to float"

/-- The body of the `try` block of `calculate_correlation` (source lines
702-738): it either returns a value (`Except.ok`, carrying a full record
or the soft error record) or raises (`Except.error`). -/
noncomputable def corr_body (df : Df) (col1 col2 : String) :
    Except CorrExc CorrOutcome :=
  if col1 = "" ∨ col2 = "" then
    .ok (.err "Не выбраны столбцы для анализа")
  else
    match resolveCol col1 with
    | none => .error (.keyError col1)
    | some c1 =>
      match resolveCol col2 with
      | none => .error (.keyError col2)
      | some c2 =>
        if maskCount df c1 c2 < 2 then
          .ok (.err "Недостаточно данных для расчета")
        else if c1 = Col.activity ∨ c2 = Col.activity then
          .error .typeError
        else
          let r := pearsonR (pairsQ df c1 c2)
          .ok (.ok
            { col1 := col1
              col2 := col2
              r := r
              strength := interpret_correlation r
              interp := get_correlation_interpretation r
              nPairs := maskCount df c1 c2
              pval := pvalOf r (maskCount df c1 c2) })

/-- `calculate_correlation` (source lines 699-741): the `try` body with the
`except` handler that converts every raised exception into the error
record `{'Ошибка': str(e)}`. -/
noncomputable def calculate_correlation (df : Df) (col1 col2 : String) :
    CorrOutcome :=
  match corr_body df col1 col2 with
  | .ok o => o
  | .error e => .err (excMsg e)

/-- The Pearson coefficient of an outcome: `none` for the error record. -/
noncomputable def rOf : CorrOutcome → Option (Option ℝ)
  | .ok rec => some rec.r
  | .err _ => none

/-- A fitted-then-applied regression model: given the training features,
the training labels and the test features it produces the predictions
(`model.fit(X_train, y_train); model.predict(X_test)`).  The sklearn
estimators are external code, so they enter the embedding as an opaque
function of exactly these inputs. -/
abbrev FitFn : Type :=
  List (List ℚ) → List ℚ → List (List ℚ) → List ℚ

/-- `SS_tot = Σ (y - mean(y))²`. -/
def ss_tot (l : List ℚ) : ℚ :=
  (l.map (fun v => (v - meanQ l) ^ 2)).sum

/-- `SS_res = Σ (y_true - y_pred)²` over positionally paired entries. -/
def ss_res (yt yp : List ℚ) : ℚ :=
  ((yt.zip yp).map (fun p => (p.1 - p.2) ^ 2)).sum

/-- `sklearn.metrics.mean_absolute_error`. -/
def mean_absolute_error (yt yp : List ℚ) : ℚ :=
  meanQ ((yt.zip yp).map (fun p => |p.1 - p.2|))

/-- `sklearn.metrics.mean_squared_error`. -/
def mean_squared_error (yt yp : List ℚ) : ℚ :=
  meanQ ((yt.zip yp).map (fun p => (p.1 - p.2) ^ 2))

/-- `sklearn.metrics.r2_score`, `1 - SS_res / SS_tot`.  With its default
`force_finite=True` a constant `y_true` (zero total variance) does not
raise and is not dropped: the score is forced to `1.0` when the residuals
are also zero and to `0.0` otherwise. -/
def r2_score (yt yp : List ℚ) : ℚ :=
  if ss_tot yt = 0 then (if ss_res yt yp = 0 then 1 else 0)
  else 1 - ss_res yt yp / ss_tot yt

/-- The lag-window training set built by the loop of `open_forecast_plot`
(source lines 1217-1223): for each start index `i` below
`len(data) - lag`, the feature row is the slice `data[i : i + lag]` and
the label is `data[i + lag]`. -/
def lagFeatures (data : List ℚ) (lag : ℕ) : List (List ℚ) × List ℚ :=
  ((List.range (data.length - lag)).map (fun i => (data.drop i).take lag),
   (List.range (data.length - lag)).map (fun i => data.getD (i + lag) 0))

/-- The guarded lag-feature construction of `open_forecast_plot` (source
lines 1210-1223): when `len(data) < lag * 2` the handler shows the
insufficient-data warning and returns without building features
(`none`). -/
def lagStep (data : List ℚ) (lag : ℕ) :
    Option (List (List ℚ) × List ℚ) :=
  if data.length < lag * 2 then none else some (lagFeatures data lag)

/-- `sklearn.model_selection.train_test_split(..., test_size=0.2,
shuffle=False)` on one sequence (source lines 1225-1227; X and y are split
with the same indices).  Per the sklearn semantics of a float
`test_size`, the test set has `ceil(0.2 * n)` rows — `(n + 4) / 5` in
natural-number arithmetic — taken from the end, and the first
`n - ceil(0.2 * n)` rows are the training set, in order. -/
def train_test_split (l : List ℚ) : List ℚ × List ℚ :=
  let nTest := (l.length + 4) / 5
  (l.take (l.length - nTest), l.drop (l.length - nTest))

/-- `train_test_split` on the feature matrix (same split rule). -/
def train_test_splitX (l : List (List ℚ)) : List (List ℚ) × List (List ℚ) :=
  let nTest := (l.length + 4) / 5
  (l.take (l.length - nTest), l.drop (l.length - nTest))

/-- The data a forecast produces (source lines 1229-1234): the test
labels, the predictions and the three accuracy metrics. -/
structure ForecastRun where
  y_test : List ℚ
  y_pred : List ℚ
  mae : ℚ
  rmse : ℝ
  r2 : ℚ

/-- Outcome of `open_forecast_plot`: the column-validation warning path,
the insufficient-data warning path, or a completed forecast. -/
inductive ForecastOutcome
  | invalid
  | insufficient
  | ok (run : ForecastRun)

/-- `validate_numeric_column` (source lines 869-884): the column must
exist, have a numeric dtype (only the volume column does; the time column
is datetime64 and the category column is object), and be non-empty after
`dropna`. -/
def validate_numeric_column (df : Df) (column : String) : Bool :=
  match resolveCol column with
  | some Col.volume => !(dropnaVol df).isEmpty
  | _ => false

/-- `open_forecast_plot` (source lines 1201-1242): validate the column,
drop missing values, guard on `len(data) < lag * 2`, build lag features,
split chronologically, fit and predict with the given model, and compute
MAE, RMSE and R². -/
noncomputable def open_forecast_plot (fit : FitFn) (df : Df)
    (column : String) (lag : ℕ) : ForecastOutcome :=
  if !validate_numeric_column df column then .invalid
  else
    match lagStep (dropnaVol df) lag with
    | none => .insufficient
    | some (X, y) =>
      .ok
        { y_test := (train_test_split y).2
          y_pred := fit (train_test_splitX X).1 (train_test_split y).1
            (train_test_splitX X).2
          mae := mean_absolute_error (train_test_split y).2
            (fit (train_test_splitX X).1 (train_test_split y).1
              (train_test_splitX X).2)
          rmse := Real.sqrt ((mean_squared_error (train_test_split y).2
            (fit (train_test_splitX X).1 (train_test_split y).1
              (train_test_splitX X).2) : ℚ) : ℝ)
          r2 := r2_score (train_test_split y).2
            (fit (train_test_splitX X).1 (train_test_split y).1
              (train_test_splitX X).2) }

/-- The three forecast model kinds (source lines 1189-1199). -/
inductive ModelKind
  | linear
  | decisionTree
  | randomForest

/-- The sklearn estimator constructors as the program sees them:
`LinearRegression()` (no randomness), `DecisionTreeRegressor(random_state)`
and `RandomForestRegressor(n_estimators, random_state)`.  A value of this
type stands for one concrete execution of the library; sklearn's contract
is that a fitted estimator is a function of its constructor arguments and
training data, which is why the fields are plain functions. -/
structure SkLib where
  linearRegression : FitFn
  decisionTree : ℕ → FitFn
  randomForest : ℕ → ℕ → FitFn

/-- The estimator each button constructs (source lines 1189-1199):
`LinearRegression()`, `DecisionTreeRegressor(random_state=42)`,
`RandomForestRegressor(n_estimators=100, random_state=42)`. -/
def modelOf (lib : SkLib) : ModelKind → FitFn
  | ModelKind.linear => lib.linearRegression
  | ModelKind.decisionTree => lib.decisionTree 42
  | ModelKind.randomForest => lib.randomForest 100 42

/-- One button press: `open_linear_regression_plot`,
`open_decision_tree_plot` or `open_random_forest_plot`, each of which
calls `open_forecast_plot` with `lag=7` and the estimator built by
`modelOf` (source lines 1189-1199). -/
noncomputable def open_model_plot (lib : SkLib) (k : ModelKind) (df : Df)
    (column : String) : ForecastOutcome :=
  open_forecast_plot (modelOf lib k) df column 7

/-- The R² of a forecast outcome, when one was produced. -/
noncomputable def r2Of : ForecastOutcome → Option ℚ
  | .ok run => some run.r2
  | _ => none

/-- The total variance statistic `SS_tot` of the test labels of a
forecast outcome, when one was produced. -/
noncomputable def sstotOf : ForecastOutcome → Option ℚ
  | .ok run => some (ss_tot run.y_test)
  | _ => none

/-- The significance mapping exactly as the specification words it (claim
C6): `t = |r| * sqrt((n-2)/(1-r²))`, defined as infinite when `r` equals
`+1` or `-1` (so that case is the first bucket), then the four buckets
`t > 3.5`, `t > 2.6`, `t > 1.96`, otherwise.  This is the spec-side
definition, to be compared with the source-side `estimate_p_value`. -/
noncomputable def sigLabelSpec (r : ℝ) (n : ℕ) : String :=
  if r = 1 ∨ r = -1 then "< 0.001 (высоко значимо)"
  else
    let t := |r| * Real.sqrt (((n : ℝ) - 2) / (1 - r ^ 2))
    if 3.5 < t then "< 0.001 (высоко значимо)"
    else if 2.6 < t then "< 0.01 (значимо)"
    else if 1.96 < t then "< 0.05 (умеренно значимо)"
    else "> 0.05 (не значимо)"

/-- A frame whose numeric column holds the given values (concrete inputs
for the example theorems; the timestamps and categories do not matter to
the claims that use this). -/
def mkDf (vs : List ℚ) : Df :=
  ⟨vs.map (fun v => { time := 0, activity := "Пить", volume := some v })⟩

/-- The series 1..14 of the 14-point lag example. -/
def d14 : List ℚ := [1, 2, 3, 4, 5, 6, 7, 8, 9, 10, 11, 12, 13, 14]

/-- A model that predicts the constant 1 for every test row (a concrete
`FitFn` for the degenerate-R² example). -/
def constOneFit : FitFn := fun _ _ xTest => xTest.map (fun _ => 1)

/-- A trivial interpretation of the sklearn estimators, used to
instantiate the determinism theorem. -/
def zeroLib : SkLib :=
  { linearRegression := fun _ _ xTest => xTest.map (fun _ => 0)
    decisionTree := fun _ => fun _ _ xTest => xTest.map (fun _ => 0)
    randomForest := fun _ _ => fun _ _ xTest => xTest.map (fun _ => 0) }

/-- The variance field of a statistics result, when one was produced. -/
noncomputable def varOf : Except String StatSummary → Option (Option ℚ)
  | .ok s => some s.variance
  | .error _ => none

/-- The residual statistic `SS_res` of a forecast outcome, when one was
produced. -/
noncomputable def ssresOf : ForecastOutcome → Option ℚ
  | .ok run => some (ss_res run.y_test run.y_pred)
  | _ => none

/-- Fourteen equal measurements: a concrete series whose forecast test set
has zero total variance. -/
def z14 : List ℚ := [0, 0, 0, 0, 0, 0, 0, 0, 0, 0, 0, 0, 0, 0]

end WaterAnalyzer

namespace WaterAnalyzer

/-- Dropping missing values from the numeric column of a frame built by
`mkDf` recovers the value list. -/
lemma dropnaVol_mkDf (vs : List ℚ) : dropnaVol (mkDf vs) = vs := by
  induction vs with
  | nil => rfl
  | cons v t ih => simp [dropnaVol, mkDf] at ih ⊢; exact ih

/-- Expansion of a centered sum of squares. -/
lemma sum_sq_sub (l : List ℚ) (m : ℚ) :
    (l.map (fun x => (x - m) ^ 2)).sum
      = (l.map (fun x => x ^ 2)).sum - 2 * m * l.sum + l.length * m ^ 2 := by
  induction l with
  | nil => simp
  | cons a t ih => simp [ih]; ring

/-- Numeric bound: `sqrt(1.3)` is `1.1401754` to within `1e-7`. -/
lemma sqrt_13_10_approx : |Real.sqrt (13 / 10) - 1.1401754| < 1 / 10 ^ 7 := by
  have h1 : (1.1401753 : ℝ) < Real.sqrt (13 / 10) := by
    rw [show (1.1401753 : ℝ) < Real.sqrt (13 / 10) ↔ (1.1401753 : ℝ) ^ 2 < 13 / 10 from
      Real.lt_sqrt (by norm_num)]
    norm_num
  have h2 : Real.sqrt (13 / 10) < 1.1401755 := by
    rw [Real.sqrt_lt' (by norm_num)]
    norm_num
  rw [abs_lt]
  constructor <;> nlinarith

/-- C1: on the input column [1,2,2,3,4] `calculate_statistics` succeeds and
returns mean 2.4, median 2, primary mode 2, sample variance (ddof=1) 1.3,
std = sqrt(1.3) ≈ 1.1401754 (within 1e-7), q1 = 2 and q3 = 3 under the
linear-interpolation percentile method, iqr = 1, outlier fences 0.5 and
4.5. -/
theorem stats_example_values :
    calculate_statistics (mkDf [1, 2, 2, 3, 4]) "Объем воды (л)"
      = .ok (statSummary [1, 2, 2, 3, 4]) ∧
    (statSummary [1, 2, 2, 3, 4]).mean = 12 / 5 ∧
    (statSummary [1, 2, 2, 3, 4]).median = 2 ∧
    (statSummary [1, 2, 2, 3, 4]).modePrimary = some 2 ∧
    (statSummary [1, 2, 2, 3, 4]).variance = some (13 / 10) ∧
    (statSummary [1, 2, 2, 3, 4]).std = some (Real.sqrt (13 / 10)) ∧
    |Real.sqrt ((13 : ℝ) / 10) - 1.1401754| < 1 / 10 ^ 7 ∧
    (statSummary [1, 2, 2, 3, 4]).q1 = 2 ∧
    (statSummary [1, 2, 2, 3, 4]).q3 = 3 ∧
    (statSummary [1, 2, 2, 3, 4]).iqr = 1 ∧
    (statSummary [1, 2, 2, 3, 4]).fenceLo = 1 / 2 ∧
    (statSummary [1, 2, 2, 3, 4]).fenceHi = 9 / 2 := by
  refine ⟨?_, ?_, ?_, ?_, ?_, ?_, sqrt_13_10_approx, ?_, ?_, ?_, ?_, ?_⟩
  · simp [calculate_statistics, resolveCol, dropnaVol_mkDf]
  · norm_num [statSummary, meanQ]
  · norm_num [statSummary, medianQ, sortQ, insertQ]
  · norm_num [statSummary, modesQ, sortQ, insertQ, List.dedup, List.count]
  · norm_num [statSummary, varQ, meanQ]
  · have hv : varQ [1, 2, 2, 3, 4] = some (13 / 10) := by norm_num [varQ, meanQ]
    show (varQ [1, 2, 2, 3, 4]).map (fun v => Real.sqrt (v : ℝ))
      = some (Real.sqrt (13 / 10))
    rw [hv]
    norm_num
  · norm_num [statSummary, quantileQ, sortQ, insertQ, Int.toNat]
  · norm_num [statSummary, quantileQ, sortQ, insertQ, Int.toNat]
  · norm_num [statSummary, quantileQ, sortQ, insertQ, Int.toNat]
  · norm_num [statSummary, quantileQ, sortQ, insertQ, Int.toNat]
  · norm_num [statSummary, quantileQ, sortQ, insertQ, Int.toNat]

/-- C2: the lag-feature construction of `open_forecast_plot`.  When the
series is shorter than `2 * lag` no features are built: the operation
stops with the insufficient-data warning; otherwise the i-th feature row
is `series[i : i + lag]` with label `series[i + lag]`, giving exactly
`len(series) - lag` rows. -/
theorem lag_features_contract (data : List ℚ) (lag : ℕ) (_hlag : 1 ≤ lag) :
    (data.length < 2 * lag →
      lagStep data lag = none ∧
      ∀ (fit : FitFn) (df : Df), dropnaVol df = data → data ≠ [] →
        open_forecast_plot fit df "Объем воды (л)" lag = .insufficient) ∧
    (2 * lag ≤ data.length →
      ∃ X y, lagStep data lag = some (X, y) ∧
        X.length = data.length - lag ∧
        y.length = data.length - lag ∧
        ∀ i, i < data.length - lag →
          X.getD i [] = (data.drop i).take lag ∧
          y.getD i 0 = data.getD (i + lag) 0) := by
  constructor
  · intro hshort
    have hnone : lagStep data lag = none := by
      rw [lagStep, if_pos]
      omega
    refine ⟨hnone, ?_⟩
    intro fit df hdf hne
    have hval : validate_numeric_column df "Объем воды (л)" = true := by
      simp [validate_numeric_column, resolveCol, hdf, hne]
    simp [open_forecast_plot, hval, hdf, hnone]
  · intro hlong
    refine ⟨(lagFeatures data lag).1, (lagFeatures data lag).2, ?_, ?_, ?_, ?_⟩
    · rw [lagStep, if_neg]
      omega
    · simp [lagFeatures]
    · simp [lagFeatures]
    · intro i hi
      constructor
      · show ((List.range (data.length - lag)).map
          (fun i => (data.drop i).take lag)).getD i [] = (data.drop i).take lag
        rw [List.getD_eq_getElem?_getD, List.getElem?_map, List.getElem?_range hi]
        rfl
      · show ((List.range (data.length - lag)).map
          (fun i => data.getD (i + lag) 0)).getD i 0 = data.getD (i + lag) 0
        rw [List.getD_eq_getElem?_getD, List.getElem?_map, List.getElem?_range hi]
        rfl

/-- Witness for C2: the 14-point series with lag 7 satisfies the length
hypothesis and features are in fact built. -/
theorem lag_features_contract_witness :
    (1 ≤ 7 ∧ 2 * 7 ≤ d14.length) ∧ (lagStep d14 7).isSome = true := by
  refine ⟨⟨by norm_num, by norm_num [d14]⟩, ?_⟩
  obtain ⟨X, y, hXy, -, -, -⟩ :=
    (lag_features_contract d14 7 (by norm_num)).2 (by norm_num [d14])
  rw [hXy]
  rfl

/-- Counterexample to C3 as stated: with 7 feature rows (the 14-point,
lag-7 example) the chronological split leaves 2 test rows, while
`floor(0.2 * 7) = 1`, so `len(test) = floor(0.2 * len(X))` is false. -/
theorem chrono_split_cex :
    (train_test_splitX (lagFeatures d14 7).1).2.length = 2 ∧
    (lagFeatures d14 7).1.length / 5 = 1 ∧
    (train_test_splitX (lagFeatures d14 7).1).2.length
      ≠ (lagFeatures d14 7).1.length / 5 := by
  norm_num [train_test_splitX, lagFeatures, d14, List.range_succ]

/-- C3 amended: the chronological split preserves order with no shuffling
(train ++ test = X), rows [0, split) are train and [split, len) are test
with split = floor(0.8 * len(X)), and len(train) + len(test) = len(X);
but the test length is `len(X) - floor(0.8 * len(X))`, that is
`ceil(0.2 * len(X))`, not `floor(0.2 * len(X))`. -/
theorem chrono_split_order (X : List (List ℚ)) :
    (train_test_splitX X).1 ++ (train_test_splitX X).2 = X ∧
    (train_test_splitX X).1 = X.take (4 * X.length / 5) ∧
    (train_test_splitX X).2 = X.drop (4 * X.length / 5) ∧
    (train_test_splitX X).1.length + (train_test_splitX X).2.length = X.length ∧
    (train_test_splitX X).2.length = X.length - 4 * X.length / 5 := by
  have hsplit : X.length - (X.length + 4) / 5 = 4 * X.length / 5 := by omega
  refine ⟨List.take_append_drop _ _, by rw [train_test_splitX, hsplit],
    by rw [train_test_splitX, hsplit], ?_, ?_⟩
  · simp [train_test_splitX]
  · simp [train_test_splitX, hsplit]

/-- First components of swapped pairs are the second components. -/
lemma map_swap_fst (ps : List (ℚ × ℚ)) :
    (ps.map Prod.swap).map Prod.fst = ps.map Prod.snd := by
  induction ps with
  | nil => rfl
  | cons p t ih => simp_all [Prod.swap]

/-- Second components of swapped pairs are the first components. -/
lemma map_swap_snd (ps : List (ℚ × ℚ)) :
    (ps.map Prod.swap).map Prod.snd = ps.map Prod.fst := by
  induction ps with
  | nil => rfl
  | cons p t ih => simp_all [Prod.swap]

/-- The centered cross product sum is invariant under swapping every
pair. -/
lemma sxyQ_swap (ps : List (ℚ × ℚ)) : sxyQ (ps.map Prod.swap) = sxyQ ps := by
  unfold sxyQ
  rw [map_swap_fst, map_swap_snd, List.map_map]
  have hf : ((fun p : ℚ × ℚ =>
        (p.1 - meanQ (List.map Prod.snd ps)) * (p.2 - meanQ (List.map Prod.fst ps)))
          ∘ Prod.swap)
      = fun p : ℚ × ℚ =>
        (p.1 - meanQ (List.map Prod.fst ps)) * (p.2 - meanQ (List.map Prod.snd ps)) := by
    funext p
    simp only [Function.comp, Prod.swap]
    ring
  rw [hf]

/-- Swapping the pairs turns the first centered square sum into the
second. -/
lemma sxxQ_swap (ps : List (ℚ × ℚ)) : sxxQ (ps.map Prod.swap) = syyQ ps := by
  unfold sxxQ syyQ
  rw [map_swap_fst, List.map_map]
  rfl

/-- Swapping the pairs turns the second centered square sum into the
first. -/
lemma syyQ_swap (ps : List (ℚ × ℚ)) : syyQ (ps.map Prod.swap) = sxxQ ps := by
  unfold sxxQ syyQ
  rw [map_swap_snd, List.map_map]
  rfl

/-- Pearson's r is invariant under swapping every pair. -/
lemma pearsonR_swap (ps : List (ℚ × ℚ)) :
    pearsonR (ps.map Prod.swap) = pearsonR ps := by
  unfold pearsonR
  rw [sxxQ_swap, syyQ_swap, sxyQ_swap]
  rw [mul_comm (syyQ ps) (sxxQ ps),
    mul_comm ((syyQ ps : ℚ) : ℝ) ((sxxQ ps : ℚ) : ℝ)]

/-- Reversing the column order swaps every cleaned pair. -/
lemma pairsQ_swap (df : Df) (c1 c2 : Col) :
    pairsQ df c2 c1 = (pairsQ df c1 c2).map Prod.swap := by
  unfold pairsQ
  induction df.rows with
  | nil => rfl
  | cons r t ih =>
    simp only [List.filterMap_cons]
    cases h1 : numCell r c1 <;> cases h2 : numCell r c2 <;>
      simp [h1, h2, ih, Prod.swap]

/-- The pairwise `notna` mask is symmetric in the two columns. -/
lemma maskCount_comm (df : Df) (c1 c2 : Col) :
    maskCount df c1 c2 = maskCount df c2 c1 := by
  unfold maskCount
  congr 1
  apply List.filter_congr
  intro r _
  rw [Bool.and_comm]

/-- C4: `calculate_correlation` is symmetric in its two column arguments:
both orders produce the same outcome kind, and when a record is produced
the Pearson coefficient is identical — in particular the time encoding is
applied by column identity, not by argument position. -/
theorem corr_symmetric (df : Df) (a b : String) :
    rOf (calculate_correlation df a b) = rOf (calculate_correlation df b a) := by
  unfold calculate_correlation corr_body
  by_cases ha : a = ""
  · by_cases hb : b = "" <;> simp [ha, hb, rOf]
  · by_cases hb : b = ""
    · simp [ha, hb, rOf]
    · rw [if_neg (by simp [ha, hb]), if_neg (by simp [ha, hb])]
      cases hra : resolveCol a with
      | none =>
        cases hrb : resolveCol b with
        | none => simp [rOf]
        | some k2 => simp [rOf]
      | some k1 =>
        cases hrb : resolveCol b with
        | none => simp [rOf]
        | some k2 =>
          have hm : maskCount df k2 k1 = maskCount df k1 k2 := maskCount_comm df k2 k1
          by_cases hcount : maskCount df k1 k2 < 2
          · simp [hcount, hm, rOf]
          · by_cases hact : k1 = Col.activity ∨ k2 = Col.activity
            · simp [hcount, hm, hact, Or.comm.mp hact, rOf]
            · have hact2 : ¬ (k2 = Col.activity ∨ k1 = Col.activity) := by
                intro hcontra
                exact hact (Or.comm.mp hcontra)
              simp [hcount, hm, hact, hact2, rOf, pairsQ_swap df k1 k2, pearsonR_swap]

/-- C5: when the two column names are non-empty and resolve but fewer than
2 valid pairs survive the pairwise mask, `calculate_correlation` returns
the soft error record with its descriptive message, not a thrown
failure. -/
theorem corr_soft_insufficient (df : Df) (c1 c2 : String) (k1 k2 : Col)
    (h1 : c1 ≠ "") (h2 : c2 ≠ "") (hr1 : resolveCol c1 = some k1)
    (hr2 : resolveCol c2 = some k2) (hn : maskCount df k1 k2 < 2) :
    calculate_correlation df c1 c2 = .err "Недостаточно данных для расчета" := by
  simp [calculate_correlation, corr_body, h1, h2, hr1, hr2, hn]

/-- Witness for C5: a one-row frame leaves a single valid pair for the
time and volume columns, and the soft error record results. -/
theorem corr_soft_insufficient_witness :
    ("Время" ≠ "" ∧ "Объем воды (л)" ≠ "" ∧
      resolveCol "Время" = some Col.time ∧
      resolveCol "Объем воды (л)" = some Col.volume ∧
      maskCount (mkDf [5]) Col.time Col.volume < 2) ∧
    calculate_correlation (mkDf [5]) "Время" "Объем воды (л)"
      = .err "Недостаточно данных для расчета" := by
  refine ⟨⟨by decide, by decide, rfl, rfl, by decide⟩,
    corr_soft_insufficient (mkDf [5]) "Время" "Объем воды (л)" Col.time Col.volume
      (by decide) (by decide) rfl rfl (by decide)⟩

/-- C6: for every correlation coefficient in [-1, 1] and more than 2
pairs, the significance label computed by `estimate_p_value` agrees with
the specification mapping `sigLabelSpec`: `t = |r| * sqrt((n-2)/(1-r²))`,
infinite at r = ±1, with exactly the four buckets
t > 3.5, t > 2.6, t > 1.96, otherwise. -/
theorem significance_buckets (r : ℝ) (n : ℕ) (h2 : 2 < n)
    (hl : -1 ≤ r) (hr : r ≤ 1) :
    estimate_p_value r n = sigLabelSpec r n := by
  have hn : ¬ n ≤ 2 := by omega
  by_cases h1 : r = 1
  · subst h1
    simp [estimate_p_value, sigLabelSpec, hn]
  by_cases hm1 : r = -1
  · subst hm1
    norm_num [estimate_p_value, sigLabelSpec, hn]
  · have hsq : r ^ 2 < 1 := by
      rcases lt_of_le_of_ne hl (Ne.symm hm1) with hlow
      rcases lt_of_le_of_ne hr h1 with hhigh
      nlinarith
    have hne : 1 - r ^ 2 ≠ 0 := by nlinarith
    simp [estimate_p_value, sigLabelSpec, hn, h1, hm1, hne]

/-- Witness for C6: at r = 1, n = 3 the hypotheses hold and the two
mappings agree. -/
theorem significance_buckets_witness :
    ((2 : ℕ) < 3 ∧ (-1 : ℝ) ≤ 1 ∧ (1 : ℝ) ≤ 1) ∧
    estimate_p_value 1 3 = sigLabelSpec 1 3 :=
  ⟨⟨by norm_num, by norm_num, le_refl 1⟩,
    significance_buckets 1 3 (by norm_num) (by norm_num) (le_refl 1)⟩

/-- A mean of zero makes the coefficient-of-variation key absent. -/
lemma statSummary_cv_of_mean_zero (l : List ℚ) (h : meanQ l = 0) :
    (statSummary l).cv = none := by
  simp [statSummary, h]

/-- A completed forecast's R² field is exactly `r2_score` of its test
labels and predictions. -/
lemma open_forecast_plot_run (fit : FitFn) (df : Df) (col : String)
    (lag : ℕ) (run : ForecastRun)
    (h : open_forecast_plot fit df col lag = .ok run) :
    run.r2 = r2_score run.y_test run.y_pred := by
  unfold open_forecast_plot at h
  split at h
  · exact absurd h (by simp)
  · split at h
    · exact absurd h (by simp)
    · cases h
      rfl

/-- The volume column resolves to the volume column identity. -/
lemma resolveCol_volume : resolveCol "Объем воды (л)" = some Col.volume := by
  simp [resolveCol]

/-- Counterexample to C7 as stated: on fourteen equal measurements the
test labels have zero total variance, yet the forecast result still
carries a defined numeric R² (the sklearn fallback 0), rather than
omitting the field. -/
theorem degenerate_r2_cex :
    sstotOf (open_forecast_plot constOneFit (mkDf z14) "Объем воды (л)" 7)
      = some 0 ∧
    r2Of (open_forecast_plot constOneFit (mkDf z14) "Объем воды (л)" 7)
      = some 0 := by
  constructor <;>
  · norm_num [sstotOf, r2Of, open_forecast_plot, validate_numeric_column,
      resolveCol_volume, dropnaVol_mkDf, z14, lagStep, lagFeatures, List.range_succ,
      train_test_split, train_test_splitX, constOneFit, ss_tot, ss_res, r2_score,
      meanQ, mean_absolute_error, mean_squared_error]

/-- C7 amended: neither degenerate case raises.  A zero column mean makes
`calculate_statistics` omit the coefficient-of-variation field; a test
set with zero total variance does not make the forecast omit R² — the
field is present with sklearn's finite fallback value, 1 when the
residuals are also zero and 0 otherwise. -/
theorem degenerate_omission :
    (∀ (df : Df) (col : String) (s : StatSummary),
      calculate_statistics df col = .ok s → s.mean = 0 → s.cv = none) ∧
    (∀ (fit : FitFn) (df : Df) (col : String) (lag : ℕ),
      sstotOf (open_forecast_plot fit df col lag) = some 0 →
      r2Of (open_forecast_plot fit df col lag)
        = some (if ssresOf (open_forecast_plot fit df col lag) = some 0
            then (1 : ℚ) else 0)) := by
  constructor
  · intro df col s h hm
    unfold calculate_statistics at h
    cases hres : resolveCol col with
    | none => rw [hres] at h; exact absurd h (by simp)
    | some c =>
      rw [hres] at h
      cases c with
      | time =>
        rcases Bool.eq_false_or_eq_true df.rows.isEmpty with hb | hb <;>
          simp [hb] at h
      | activity =>
        rcases Bool.eq_false_or_eq_true df.rows.isEmpty with hb | hb <;>
          simp [hb] at h
      | volume =>
        rcases Bool.eq_false_or_eq_true (dropnaVol df).isEmpty with hb | hb <;>
          simp [hb] at h
        subst h
        exact statSummary_cv_of_mean_zero _ hm
  · intro fit df col lag hss
    cases houtcome : open_forecast_plot fit df col lag with
    | invalid => rw [houtcome] at hss; exact absurd hss (by simp [sstotOf])
    | insufficient => rw [houtcome] at hss; exact absurd hss (by simp [sstotOf])
    | ok run =>
      rw [houtcome] at hss
      simp [sstotOf] at hss
      have hr2 := open_forecast_plot_run fit df col lag run houtcome
      simp [r2Of, ssresOf, hr2, r2_score, hss]

/-- Witness for C7: a zero-mean two-element column omits cv, and the
degenerate fourteen-point forecast satisfies the zero-variance hypothesis
with the fallback R². -/
theorem degenerate_omission_witness :
    (calculate_statistics (mkDf [0, 0]) "Объем воды (л)"
        = .ok (statSummary [0, 0]) ∧
      (statSummary [0, 0]).mean = 0 ∧ (statSummary [0, 0]).cv = none) ∧
    (sstotOf (open_forecast_plot constOneFit (mkDf z14) "Объем воды (л)" 7)
        = some 0 ∧
      r2Of (open_forecast_plot constOneFit (mkDf z14) "Объем воды (л)" 7)
        = some (if ssresOf (open_forecast_plot constOneFit (mkDf z14)
            "Объем воды (л)" 7) = some 0 then (1 : ℚ) else 0)) := by
  have hok : calculate_statistics (mkDf [0, 0]) "Объем воды (л)"
      = .ok (statSummary [0, 0]) := by
    simp [calculate_statistics, resolveCol, dropnaVol_mkDf]
  have hmean : (statSummary [0, 0]).mean = 0 := by norm_num [statSummary, meanQ]
  have hsst : sstotOf (open_forecast_plot constOneFit (mkDf z14)
      "Объем воды (л)" 7) = some 0 := by
    norm_num [sstotOf, open_forecast_plot, validate_numeric_column,
      resolveCol_volume, dropnaVol_mkDf, z14, lagStep, lagFeatures, List.range_succ,
      train_test_split, train_test_splitX, constOneFit, ss_tot, meanQ]
  exact ⟨⟨hok, hmean, degenerate_omission.1 (mkDf [0, 0]) _ _ hok hmean⟩,
    ⟨hsst, degenerate_omission.2 constOneFit (mkDf z14) _ 7 hsst⟩⟩

/-- Counterexample to C8 as stated: on a single-element column the
computation does not fail — it succeeds and stores a NaN variance
(`some none`: a summary was produced, its variance field is NaN). -/
theorem variance_singleton_cex :
    varOf (calculate_statistics (mkDf [5]) "Объем воды (л)") = some none := by
  have hok : calculate_statistics (mkDf [5]) "Объем воды (л)"
      = .ok (statSummary [5]) := by
    simp [calculate_statistics, resolveCol, dropnaVol_mkDf]
  rw [hok]
  show some (varQ [5]) = some none
  norm_num [varQ]

/-- C8 amended: `calculate_statistics` succeeds on every non-empty numeric
column; with n ≥ 2 the variance uses Bessel's correction — equal to
`(n·Σx² - (Σx)²) / (n(n-1))` — and std is its square root; with n < 2 the
variance is NaN (undefined) while the computation still returns a
summary instead of failing. -/
theorem variance_bessel (data : List ℚ) :
    (∀ df : Df, dropnaVol df = data → data ≠ [] →
      calculate_statistics df "Объем воды (л)" = .ok (statSummary data)) ∧
    (2 ≤ data.length →
      (statSummary data).variance
        = some (((data.length : ℚ) * (data.map (fun x => x ^ 2)).sum - data.sum ^ 2)
            / ((data.length : ℚ) * ((data.length : ℚ) - 1)))) ∧
    (statSummary data).std
      = ((statSummary data).variance).map (fun v => Real.sqrt (v : ℝ)) ∧
    (data.length < 2 → (statSummary data).variance = none) := by
  refine ⟨?_, ?_, rfl, ?_⟩
  · intro df hdf hne
    simp [calculate_statistics, resolveCol, hdf, hne]
  · intro hn
    have hvar : (statSummary data).variance = varQ data := rfl
    rw [hvar]
    have hlen : (0 : ℚ) < (data.length : ℚ) := by
      exact_mod_cast Nat.lt_of_lt_of_le (by norm_num) hn
    have hlen1 : ((data.length : ℚ) - 1) ≠ 0 := by
      have : (1 : ℚ) < (data.length : ℚ) := by exact_mod_cast hn
      intro hcontra
      nlinarith
    rw [varQ, if_pos hn]
    congr 1
    rw [sum_sq_sub data (meanQ data), meanQ]
    field_simp
    ring
  · intro hn
    have hvar : (statSummary data).variance = varQ data := rfl
    rw [hvar, varQ, if_neg]
    omega

/-- Witness for C8: the two-element column [1, 2] has Bessel variance
1/2. -/
theorem variance_bessel_witness :
    (2 ≤ ([1, 2] : List ℚ).length ∧ ([1, 2] : List ℚ) ≠ [] ∧
      dropnaVol (mkDf [1, 2]) = [1, 2]) ∧
    calculate_statistics (mkDf [1, 2]) "Объем воды (л)" = .ok (statSummary [1, 2]) ∧
    (statSummary [1, 2]).variance = some (1 / 2) := by
  refine ⟨⟨by norm_num, by simp, dropnaVol_mkDf _⟩,
    (variance_bessel [1, 2]).1 (mkDf [1, 2]) (dropnaVol_mkDf _) (by simp), ?_⟩
  have h := (variance_bessel [1, 2]).2.1 (by norm_num)
  rw [h]
  norm_num

/-- C9: the forecast pipeline is a deterministic function of its inputs:
for any two executions of the estimator library that agree at the
constructor arguments the program actually passes (seed 42, and 100 trees
for the forest), a button press produces identical outcomes — in
particular identical MAE, RMSE and R². -/
theorem forecast_deterministic (lib1 lib2 : SkLib) (k : ModelKind)
    (df : Df) (col : String) (h : modelOf lib1 k = modelOf lib2 k) :
    open_model_plot lib1 k df col = open_model_plot lib2 k df col := by
  unfold open_model_plot
  rw [h]

/-- Witness for C9: running the same concrete library twice on the
14-point series yields the same outcome. -/
theorem forecast_deterministic_witness :
    modelOf zeroLib ModelKind.linear = modelOf zeroLib ModelKind.linear ∧
    open_model_plot zeroLib ModelKind.linear (mkDf d14) "Объем воды (л)"
      = open_model_plot zeroLib ModelKind.linear (mkDf d14) "Объем воды (л)" :=
  ⟨rfl, forecast_deterministic zeroLib zeroLib ModelKind.linear (mkDf d14)
    "Объем воды (л)" rfl⟩

/-- C10: `calculate_correlation` never propagates an exception: every
call produces either the full record or the error record, and whenever
the try-block body raises, the handler returns the error record carrying
the exception text. -/
theorem corr_no_throw (df : Df) (c1 c2 : String) :
    ((∃ rec, calculate_correlation df c1 c2 = .ok rec) ∨
      (∃ m, calculate_correlation df c1 c2 = .err m)) ∧
    (∀ e, corr_body df c1 c2 = .error e →
      calculate_correlation df c1 c2 = .err (excMsg e)) := by
  constructor
  · cases h : calculate_correlation df c1 c2 with
    | ok rec => exact Or.inl ⟨rec, rfl⟩
    | err m => exact Or.inr ⟨m, rfl⟩
  · intro e he
    unfold calculate_correlation
    rw [he]

/-- Witness for C10: an unknown column name raises a `KeyError` inside
the body, and the caller receives it as the error record. -/
theorem corr_no_throw_witness :
    corr_body (mkDf []) "Foo" "Время" = .error (.keyError "Foo") ∧
    calculate_correlation (mkDf []) "Foo" "Время"
      = .err (excMsg (.keyError "Foo")) := by
  have h1 : corr_body (mkDf []) "Foo" "Время" = .error (.keyError "Foo") := by
    simp [corr_body, resolveCol]
  exact ⟨h1, (corr_no_throw (mkDf []) "Foo" "Время").2 (.keyError "Foo") h1⟩

end WaterAnalyzer
